import Mathlib

/-!
Shallow embedding of the cross-tab-tool frontend core, written against the
TypeScript sources:

* `frontend/src/contexts/data-context.tsx` — the custom-variable evaluator
  (`addCustomVariable`): per-row condition evaluation and derived-column
  construction.
* `frontend/src/components/variable-info-dialog.tsx` (and the sibling copy
  among the unnamed sources) — `getFrequencyData` and the `CrosstabBuilder`
  component: selection management (`addRowVariable` …), `canRunAnalysis`,
  and the `handleRunAnalysis` request payload.
* `CustomVariableBuilder` (unnamed sources) — the shape of conditions:
  `id : string`, `operator : AND | OR`, `column`, `value : string`,
  `comparison : string`.

JavaScript dynamic values are modelled by an explicit `JSVal` type with the
coercions the evaluated code actually performs (`===` against a string,
`String(v)`, `Number(v)`); JS numbers are modelled as rationals (the code
performs only comparisons on them, no arithmetic, so the rational order is
faithful for every value exactly representable as a double).  `Number` on a
string is modelled for plain decimal literals (optional sign, digits, one
dot, surrounding whitespace, the empty string coercing to 0); hexadecimal,
exponent and Infinity forms are not modelled and no theorem depends on
them.  The rendering `String(v)` is exact for strings, null, undefined,
booleans, NaN and integral numbers; non-integral numbers use a marker
rendering that no theorem depends on.
-/

namespace CrossTabTool

/-- Model of a dynamically typed JavaScript cell value. -/
inductive JSVal where
  | vNull
  | vUndef
  | vNaN
  | vBool (b : Bool)
  | vNum (q : ℚ)
  | vStr (s : String)
deriving DecidableEq

/-- A dataset row, i.e. a JS object: insertion-ordered keyed fields.
Rows produced by the CSV/SPSS parsers have pairwise distinct keys. -/
def Row := List (String × JSVal)

instance : DecidableEq Row := by
  unfold Row
  infer_instance

/-- JS property read `row[k]`: a missing key reads as `undefined`. -/
def rowGet (row : Row) (k : String) : JSVal :=
  (row.lookup k).getD JSVal.vUndef

/-- Keys of a row object, in order. -/
def rowKeys (row : Row) : List String :=
  row.map Prod.fst

/-- JS object spread `\x7b...row, [k]: v\x7d`: if `k` is already a key its
value is replaced in place (JS preserves the original key position), else
the key is appended at the end. -/
def objSet : Row → String → JSVal → Row
  | [], k, v => [(k, v)]
  | (k1, v1) :: rest, k, v =>
      if k1 = k then (k1, v) :: rest else (k1, v1) :: objSet rest k v

/-- Digit-string value used by the `Number(string)` model. -/
def digitsToNat (l : List Char) : ℕ :=
  l.foldl (fun a c => a * 10 + (c.toNat - 48)) 0

/-- Parse an unsigned decimal literal (digits, optionally one dot, at least
one digit overall), as JS `Number` accepts after sign splitting. -/
def parseUnsigned (l : List Char) : Option ℚ :=
  let intPart := l.takeWhile (fun c => c != '.')
  let rest := l.dropWhile (fun c => c != '.')
  match rest with
  | [] =>
      if intPart.isEmpty || !intPart.all Char.isDigit then none
      else some ((digitsToNat intPart : ℚ))
  | _ :: frac =>
      if frac.any (fun c => c == '.') then none
      else if !intPart.all Char.isDigit || !frac.all Char.isDigit then none
      else if intPart.isEmpty && frac.isEmpty then none
      else some ((digitsToNat intPart : ℚ) +
                 (digitsToNat frac : ℚ) / ((10 : ℚ) ^ frac.length))

/-- Model of JS `Number(s)` for a string `s`: `none` stands for NaN.
Whitespace is trimmed; the empty string coerces to 0. -/
def parseJSNumber (s : String) : Option ℚ :=
  let l := ((s.data.dropWhile Char.isWhitespace).reverse.dropWhile
              Char.isWhitespace).reverse
  match l with
  | [] => some 0
  | c :: rest =>
      if c = '-' then (parseUnsigned rest).map (fun q => -q)
      else if c = '+' then parseUnsigned rest
      else parseUnsigned (c :: rest)

/-- Model of JS `Number(v)`: `none` stands for NaN. -/
def jsToNumber : JSVal → Option ℚ
  | .vNull => some 0
  | .vUndef => none
  | .vNaN => none
  | .vBool b => some (if b then 1 else 0)
  | .vNum q => some q
  | .vStr s => parseJSNumber s

/-- Decimal rendering of an integer, as JS renders integral numbers. -/
def intToJSString (i : ℤ) : String :=
  if i < 0 then "-" ++ Nat.repr i.natAbs else Nat.repr i.natAbs

/-- Rendering of a model number.  Integral values match JS exactly;
non-integral values use a fraction marker (JS prints a decimal expansion
of the double — no theorem in this file depends on that branch). -/
def ratToJSString (q : ℚ) : String :=
  if q.den = 1 then intToJSString q.num
  else intToJSString q.num ++ "/" ++ Nat.repr q.den

/-- Model of JS `String(v)`. -/
def jsToString : JSVal → String
  | .vNull => "null"
  | .vUndef => "undefined"
  | .vNaN => "NaN"
  | .vBool b => if b then "true" else "false"
  | .vNum q => ratToJSString q
  | .vStr s => s

/-- Substring test on character lists (`pat` occurs inside `s`). -/
def charsContain (pat : List Char) : List Char → Bool
  | [] => pat.isEmpty
  | c :: t => pat.isPrefixOf (c :: t) || charsContain pat t

/-- Model of JS `s.includes(pat)`. -/
def jsIncludes (s pat : String) : Bool :=
  charsContain pat.data s.data

/-- Model of JS strict equality `v === s` where `s` is a string: true only
when `v` is the identical string (values of any other type never compare
equal to a string under `===`). -/
def jsStrictEqStr (v : JSVal) (s : String) : Bool :=
  match v with
  | .vStr t => t == s
  | _ => false

/-- JS `>` between two `Number` coercions: false if either is NaN. -/
def numGt : Option ℚ → Option ℚ → Bool
  | some a, some b => decide (b < a)
  | _, _ => false

/-- JS `<` between two `Number` coercions: false if either is NaN. -/
def numLt : Option ℚ → Option ℚ → Bool
  | some a, some b => decide (a < b)
  | _, _ => false

/-- A custom-variable condition as built by `CustomVariableBuilder`
(fields `id`, `operator`, `column`, `value`, `comparison`).  The payloads
are dynamically typed in `data-context.tsx` (`conditions?: any[]`), so
`operator` and `comparison` are kept as strings. -/
structure Condition where
  id : String
  operator : String
  column : String
  value : String
  comparison : String
deriving DecidableEq

/-- A variable record from the data context (`Variable` in
`data-context.tsx`): `conditions` is optional there. -/
structure Variable where
  id : String
  name : String
  label : String
  type : String
  conditions : Option (List Condition)
deriving DecidableEq

/-- Truth value of one condition for one row — the `switch` of
`addCustomVariable` in `data-context.tsx` lines 79–92, including its
`default: return false` branch for an unknown comparison kind. -/
def evalCondition (row : Row) (c : Condition) : Bool :=
  let value := rowGet row c.column
  if c.comparison = "equals" then jsStrictEqStr value c.value
  else if c.comparison = "contains" then jsIncludes (jsToString value) c.value
  else if c.comparison = "greater_than" then
    numGt (jsToNumber value) (parseJSNumber c.value)
  else if c.comparison = "less_than" then
    numLt (jsToNumber value) (parseJSNumber c.value)
  else false

/-- The `matchesConditions` value of `addCustomVariable`:
`variable.conditions?.every(...)`, with the undefined-conditions case
falsy in the subsequent `matchesConditions ? 1 : 0`. -/
def matchesConditions (v : Variable) (row : Row) : Bool :=
  match v.conditions with
  | none => false
  | some cs => cs.all (evalCondition row)

/-- The per-row update of `addCustomVariable`:
`\x7b...row, [variable.name]: matchesConditions ? 1 : 0\x7d`. -/
def processRow (v : Variable) (row : Row) : Row :=
  objSet row v.name (if matchesConditions v row then .vNum 1 else .vNum 0)

/-- The data-context state touched by `addCustomVariable`: the loaded
dataset (`data`, null before a load) and the variable list. -/
structure DataState where
  data : Option (List Row)
  /-- Source field name `variables` (a reserved token in Lean 4). -/
  variableList : List Variable
deriving DecidableEq

/-- `addCustomVariable` from `data-context.tsx` lines 73–102: appends the
variable to the variable list and, when data is loaded, maps every row
through the derived-column update. -/
def addCustomVariable (s : DataState) (v : Variable) : DataState :=
  { variableList := s.variableList ++ [v]
    data :=
      match s.data with
      | none => none
      | some rows => some (rows.map (processRow v)) }

/-- Following the spec's words (§4.2), for refinement comparison with the
code: conditions are combined left-to-right via each condition's declared
`operator` relative to the prior partial result, a left-associative fold
seeded by the first condition's truth value. -/
def specFoldConditions (row : Row) : List Condition → Bool
  | [] => true
  | c :: rest =>
      rest.foldl
        (fun acc c1 =>
          if c1.operator = "OR" then acc || evalCondition row c1
          else acc && evalCondition row c1)
        (evalCondition row c)

/-- Following the spec's words (§4.2), for refinement comparison with the
code: a condition's truth value is `equals` → raw value string-equals the
comparison value; `contains` → string containment; `greater_than` and
`less_than` → numeric comparison, false if either side is non-numeric. -/
def specConditionTruth (row : Row) (c : Condition) : Bool :=
  let value := rowGet row c.column
  if c.comparison = "equals" then jsToString value == c.value
  else if c.comparison = "contains" then jsIncludes (jsToString value) c.value
  else if c.comparison = "greater_than" then
    numGt (jsToNumber value) (parseJSNumber c.value)
  else if c.comparison = "less_than" then
    numLt (jsToNumber value) (parseJSNumber c.value)
  else false

/-! ### Variable-info dialog frequency data

From `variable-info-dialog.tsx` (`getFrequencyData`, the version among the
unnamed sources that reads `variable.value_labels`): the categorical branch
fills `count` with `Math.floor(Math.random() * 100) + 1` and `percentage`
with `(Math.random() * 100).toFixed(1)`.  The calls to `Math.random()` are
made explicit as a stream `rand : ℕ → ℚ` consumed in call order (two draws
per value label); `toFixed(1)` is modelled as tenths with half-up
rounding. -/

/-- The variable record the info dialog reads. -/
structure InfoVariable where
  name : String
  label : String
  type : String
  value_labels : List (String × String)
  missing_values : List String
deriving DecidableEq

/-- One categorical frequency row of the dialog; `percentageTenths` holds
the `toFixed(1)` percentage scaled by 10. -/
structure CatFreqItem where
  value : String
  originalValue : String
  count : ℤ
  percentageTenths : ℤ
deriving DecidableEq

/-- Numeric-branch summary of `getFrequencyData` (hard-coded figures in
the source, except `missing`). -/
structure NumericFreq where
  min : ℚ
  max : ℚ
  mean : ℚ
  median : ℚ
  stdDev : ℚ
  missing : ℕ
deriving DecidableEq

inductive FrequencyData where
  | numeric (d : NumericFreq)
  | categorical (items : List CatFreqItem)
deriving DecidableEq

/-- Categorical items of `getFrequencyData`: entry `i` consumes random
draws `2*i` (count) and `2*i+1` (percentage). -/
def catFreqItems (rand : ℕ → ℚ) : ℕ → List (String × String) → List CatFreqItem
  | _, [] => []
  | i, (value, label) :: rest =>
      { value := label
        originalValue := value
        count := ⌊rand (2 * i) * 100⌋ + 1
        percentageTenths := ⌊rand (2 * i + 1) * 100 * 10 + 1 / 2⌋ } ::
      catFreqItems rand (i + 1) rest

/-- `getFrequencyData` from the info dialog, with the `Math.random()`
stream made explicit. -/
def getFrequencyData (v : InfoVariable) (rand : ℕ → ℚ) : FrequencyData :=
  if v.type = "numeric" then
    .numeric
      { min := 18, max := 85, mean := 42.5, median := 41, stdDev := 15.2
        missing := v.missing_values.length }
  else
    .categorical (catFreqItems rand 0 v.value_labels)

/-! ### CrosstabBuilder: selections, payload, dispatch -/

/-- A `CustomVariable` as produced by `CustomVariableBuilder`. -/
structure CustomVariable where
  name : String
  label : String
  conditions : List Condition
deriving DecidableEq

/-- The subgroup value dispatched: a single literal when exactly one value
is selected, else the list of selected values. -/
inductive SubgroupVal where
  | single (v : String)
  | multi (vs : List String)
deriving DecidableEq

/-- The `CrosstabBuilder` component state used by `handleRunAnalysis`,
plus the data file path it reads from the data context. -/
structure BuilderState where
  rowVariables : List String
  columnVariables : List String
  bannerVariables : List String
  chiSquare : Bool
  phiCramer : Bool
  contingency : Bool
  rowPct : Bool
  colPct : Bool
  totalPct : Bool
  enableSig : Bool
  sigLevel : ℚ
  decimalPlaces : ℕ
  missing : String
  hideEmpty : Bool
  customVariables : List CustomVariable
  weightVar : Option String
  subgroupVar : Option String
  subgroupValues : List String
  filePath : Option String
deriving DecidableEq

/-- The JSON payload `handleRunAnalysis` posts to `/api/analyze-crosstab`
(doubling as the spec's `CrossTabRequest` for the backend model). -/
structure Payload where
  file_path : String
  row_vars : List String
  col_vars : List String
  statistics : List String
  row_pct : Bool
  col_pct : Bool
  total_pct : Bool
  sig_enable : Bool
  sig_level : ℚ
  decimal_places : ℕ
  missing : String
  hide_empty : Bool
  custom_variables : List CustomVariable
  weight_var : Option String
  subgroup : Option (String × SubgroupVal)
deriving DecidableEq

/-- `[chiSquare && "chi-square", phiCramer && "phi-cramer",
contingency && "contingency"].filter(Boolean)`. -/
def statisticsList (s : BuilderState) : List String :=
  (if s.chiSquare then ["chi-square"] else []) ++
  (if s.phiCramer then ["phi-cramer"] else []) ++
  (if s.contingency then ["contingency"] else [])

/-- The `subgroup` expression of `handleRunAnalysis`:
`subgroupVar && subgroupValues.length > 0 ? \x7b [subgroupVar]:
subgroupValues.length === 1 ? subgroupValues[0] : subgroupValues \x7d :
undefined`. -/
def subgroupPayload : Option String → List String → Option (String × SubgroupVal)
  | none, _ => none
  | some _, [] => none
  | some v, [x] => some (v, .single x)
  | some v, x :: y :: t => some (v, .multi (x :: y :: t))

/-- The payload object literal of `handleRunAnalysis`, given the data file
path `fp` (backslashes already replaced by `/` at the call site). -/
def buildPayload (s : BuilderState) (fp : String) : Payload :=
  { file_path := fp
    row_vars := s.rowVariables
    col_vars := s.columnVariables
    statistics := statisticsList s
    row_pct := s.rowPct
    col_pct := s.colPct
    total_pct := s.totalPct
    sig_enable := s.enableSig
    sig_level := s.sigLevel
    decimal_places := s.decimalPlaces
    missing := s.missing
    hide_empty := s.hideEmpty
    custom_variables := s.customVariables
    weight_var := s.weightVar
    subgroup := subgroupPayload s.subgroupVar s.subgroupValues }

/-- `canRunAnalysis = rowVariables.length > 0 && (columnVariables.length >
0 || bannerVariables.length > 0)`; the Run Analysis button is disabled
unless it holds. -/
def canRunAnalysis (s : BuilderState) : Bool :=
  !s.rowVariables.isEmpty &&
  (!s.columnVariables.isEmpty || !s.bannerVariables.isEmpty)

/-- JS `filePath.replace(/\\\\/g, "/")` of `handleRunAnalysis`: global
replacement of each backslash character by a forward slash. -/
def replaceBackslashes (s : String) : String :=
  String.mk (s.data.map (fun c => if c = '\\' then '/' else c))

/-- A click of Run Analysis: the button is disabled unless
`canRunAnalysis`, and `handleRunAnalysis` throws before posting when no
data file path is set (the backslash replacement is applied to the path);
otherwise the payload is posted. -/
def runAnalysisClick (s : BuilderState) : Option Payload :=
  if canRunAnalysis s then
    match s.filePath with
    | some fp => some (buildPayload s (replaceBackslashes fp))
    | none => none
  else none

/-- The selection-mutating callbacks of `CrosstabBuilder`. -/
inductive SelOp where
  | addRow (v : String)
  | addCol (v : String)
  | addBanner (v : String)
  | removeRow (v : String)
  | removeCol (v : String)
  | removeBanner (v : String)

/-- `addRowVariable` / `addColumnVariable` / `addBannerVariable` (append
only when not already included) and the `remove*Variable` filters. -/
def applySelOp (s : BuilderState) : SelOp → BuilderState
  | .addRow v =>
      if s.rowVariables.contains v then s
      else { s with rowVariables := s.rowVariables ++ [v] }
  | .addCol v =>
      if s.columnVariables.contains v then s
      else { s with columnVariables := s.columnVariables ++ [v] }
  | .addBanner v =>
      if s.bannerVariables.contains v then s
      else { s with bannerVariables := s.bannerVariables ++ [v] }
  | .removeRow v =>
      { s with rowVariables := s.rowVariables.filter (fun x => x != v) }
  | .removeCol v =>
      { s with columnVariables := s.columnVariables.filter (fun x => x != v) }
  | .removeBanner v =>
      { s with bannerVariables := s.bannerVariables.filter (fun x => x != v) }

/-! ### Backend request validation (spec-modelled) -/

/-- Validation failures of the request boundary (§7 of the spec). -/
inductive ValidationError where
  | emptyRowVars
  | unknownColumn (name : String)
  | invalidStatistic (name : String)
deriving DecidableEq

/-- Statistic names the builder can request. -/
def knownStatistics : List String :=
  ["chi-square", "phi-cramer", "contingency"]

/-- Column names a request references. -/
def referencedColumns (req : Payload) : List String :=
  req.row_vars ++ req.col_vars ++
  (match req.weight_var with | some w => [w] | none => []) ++
  (match req.subgroup with | some (n, _) => [n] | none => [])

/-- Modelled from the spec: the backend `/api/analyze-crosstab` validator
is not part of the frontend sources; §7 states that a request with an
empty `row_vars` list, an unknown column name, or an invalid statistic
name fails with a `ValidationError` before any computation. -/
def validateCrossTabRequest (cols : List String) (req : Payload) :
    Except ValidationError Unit :=
  if req.row_vars.isEmpty then .error .emptyRowVars
  else
    match (referencedColumns req).filter (fun n => !cols.contains n) with
    | n :: _ => .error (.unknownColumn n)
    | [] =>
        match req.statistics.filter (fun n => !knownStatistics.contains n) with
        | n :: _ => .error (.invalidStatistic n)
        | [] => .ok ()

/-- The initial `useState` values of the `CrosstabBuilder` component
(`sigLevel` starts at 0.05), parametrised by the data-context file path. -/
def initialBuilderState (fp : Option String) : BuilderState :=
  { rowVariables := [], columnVariables := [], bannerVariables := []
    chiSquare := false, phiCramer := false, contingency := false
    rowPct := true, colPct := true, totalPct := false
    enableSig := false, sigLevel := 1 / 20, decimalPlaces := 1
    missing := "exclude", hideEmpty := false, customVariables := []
    weightVar := none, subgroupVar := none, subgroupValues := []
    filePath := fp }

/-! ### Helper lemmas -/

theorem objSet_lookup_self (row : Row) (k : String) (v : JSVal) :
    (objSet row k v).lookup k = some v := by
  induction row with
  | nil => simp [objSet, List.lookup]
  | cons p rest ih =>
      obtain ⟨k1, v1⟩ := p
      by_cases h : k1 = k
      · subst h
        simp [objSet, List.lookup]
      · have hb : (k == k1) = false := beq_eq_false_iff_ne.mpr (Ne.symm h)
        simp [objSet, h, List.lookup, hb, ih]

theorem objSet_lookup_ne (row : Row) (k : String) (v : JSVal) (k1 : String)
    (h : k1 ≠ k) : (objSet row k v).lookup k1 = row.lookup k1 := by
  have hk : (k1 == k) = false := beq_eq_false_iff_ne.mpr h
  induction row with
  | nil => simp [objSet, List.lookup, hk]
  | cons p rest ih =>
      obtain ⟨a, b⟩ := p
      by_cases ha : a = k
      · subst ha
        simp [objSet, List.lookup, hk]
      · by_cases hb : k1 = a
        · subst hb
          simp [objSet, ha, List.lookup]
        · have hb1 : (k1 == a) = false := beq_eq_false_iff_ne.mpr hb
          simp [objSet, ha, List.lookup, hb1, ih]

@[simp] theorem rowKeys_nil : rowKeys ([] : Row) = [] := rfl

@[simp] theorem rowKeys_cons (p : String × JSVal) (rest : List (String × JSVal)) :
    rowKeys (p :: rest) = p.1 :: rowKeys rest := rfl

theorem objSet_keys_of_mem (row : Row) (k : String) (v : JSVal)
    (h : k ∈ rowKeys row) : rowKeys (objSet row k v) = rowKeys row := by
  induction row with
  | nil => simp at h
  | cons p rest ih =>
      obtain ⟨a, b⟩ := p
      by_cases ha : a = k
      · subst ha
        simp [objSet]
      · have hk : k ∈ rowKeys rest := by
          rcases List.mem_cons.mp (by simpa using h) with h2 | h2
          · exact absurd h2.symm ha
          · exact h2
        simp [objSet, ha, ih hk]

theorem objSet_keys_of_not_mem (row : Row) (k : String) (v : JSVal)
    (h : k ∉ rowKeys row) : rowKeys (objSet row k v) = rowKeys row ++ [k] := by
  induction row with
  | nil => simp [objSet]
  | cons p rest ih =>
      obtain ⟨a, b⟩ := p
      by_cases ha : a = k
      · subst ha
        exact absurd (by simp) h
      · have hk : k ∉ rowKeys rest := by
          intro hm
          exact h (by simp [hm])
        simp [objSet, ha, ih hk]

theorem rowGet_objSet_self (row : Row) (k : String) (v : JSVal) :
    rowGet (objSet row k v) k = v := by
  simp [rowGet, objSet_lookup_self]

theorem append_singleton_nodup {l : List String} {v : String}
    (h : l.Nodup) (hv : v ∉ l) : (l ++ [v]).Nodup := by
  simp [List.nodup_append, h, hv]

/-- The Nodup invariant of the three selection lists. -/
def selNodup (s : BuilderState) : Prop :=
  s.rowVariables.Nodup ∧ s.columnVariables.Nodup ∧ s.bannerVariables.Nodup

theorem addRow_mem_eq (s : BuilderState) (v : String)
    (h : v ∈ s.rowVariables) : applySelOp s (.addRow v) = s := by
  simp [applySelOp, h]

theorem addCol_mem_eq (s : BuilderState) (v : String)
    (h : v ∈ s.columnVariables) : applySelOp s (.addCol v) = s := by
  simp [applySelOp, h]

theorem addBanner_mem_eq (s : BuilderState) (v : String)
    (h : v ∈ s.bannerVariables) : applySelOp s (.addBanner v) = s := by
  simp [applySelOp, h]

theorem applySelOp_selNodup (s : BuilderState) (op : SelOp)
    (h : selNodup s) : selNodup (applySelOp s op) := by
  obtain ⟨h1, h2, h3⟩ := h
  cases op with
  | addRow v =>
      by_cases hc : v ∈ s.rowVariables
      · rw [addRow_mem_eq s v hc]
        exact ⟨h1, h2, h3⟩
      · have hcf : s.rowVariables.contains v = false := by simp [hc]
        simp only [applySelOp, hcf, Bool.false_eq_true, if_false]
        exact ⟨append_singleton_nodup h1 hc, h2, h3⟩
  | addCol v =>
      by_cases hc : v ∈ s.columnVariables
      · rw [addCol_mem_eq s v hc]
        exact ⟨h1, h2, h3⟩
      · have hcf : s.columnVariables.contains v = false := by simp [hc]
        simp only [applySelOp, hcf, Bool.false_eq_true, if_false]
        exact ⟨h1, append_singleton_nodup h2 hc, h3⟩
  | addBanner v =>
      by_cases hc : v ∈ s.bannerVariables
      · rw [addBanner_mem_eq s v hc]
        exact ⟨h1, h2, h3⟩
      · have hcf : s.bannerVariables.contains v = false := by simp [hc]
        simp only [applySelOp, hcf, Bool.false_eq_true, if_false]
        exact ⟨h1, h2, append_singleton_nodup h3 hc⟩
  | removeRow v => exact ⟨h1.filter _, h2, h3⟩
  | removeCol v => exact ⟨h1, h2.filter _, h3⟩
  | removeBanner v => exact ⟨h1, h2, h3.filter _⟩

theorem foldl_selNodup (ops : List SelOp) (s : BuilderState)
    (h : selNodup s) : selNodup (ops.foldl applySelOp s) := by
  induction ops generalizing s with
  | nil => exact h
  | cons op t ih => exact ih _ (applySelOp_selNodup s op h)

theorem runAnalysisClick_some (s : BuilderState) (p : Payload)
    (h : runAnalysisClick s = some p) :
    canRunAnalysis s = true ∧
    ∃ fp, s.filePath = some fp ∧ p = buildPayload s (replaceBackslashes fp) := by
  unfold runAnalysisClick at h
  by_cases hc : canRunAnalysis s = true
  · rw [if_pos hc] at h
    cases hf : s.filePath with
    | none => rw [hf] at h; cases h
    | some fp =>
        rw [hf] at h
        injection h with h
        exact ⟨hc, fp, rfl, h.symm⟩
  · rw [if_neg hc] at h
    cases h

/-! ### Sample inputs used by counterexamples and witnesses -/

/-- Two conditions chained with OR on their common column `x`. -/
def orChainConds : List Condition :=
  [⟨"c1", "AND", "x", "a", "equals"⟩, ⟨"c2", "OR", "x", "b", "equals"⟩]

def orChainRow : Row := [("x", JSVal.vStr "b")]

def orChainVar : Variable :=
  ⟨"cv1", "v1", "V1", "categorical", some orChainConds⟩

def orChainState : DataState := ⟨some [orChainRow], []⟩

def numericEqualsCond : Condition := ⟨"c1", "AND", "income", "5", "equals"⟩

def numericRow : Row := [("income", JSVal.vNum 5)]

/-- A dataset whose single row already has column `x`. -/
def dupState : DataState := ⟨some [[("x", JSVal.vNum 1)]], []⟩

/-- A custom variable whose target name collides with column `x`. -/
def dupVar : Variable :=
  ⟨"cv3", "x", "X", "categorical", some [⟨"c1", "AND", "x", "2", "equals"⟩]⟩

def unknownCompCond : Condition := ⟨"c1", "AND", "x", "b", "matches"⟩

def unknownCompVar : Variable :=
  ⟨"cv4", "flag", "Flag", "categorical", some [unknownCompCond]⟩

def unknownCompState : DataState := ⟨some [[("x", JSVal.vStr "b")]], []⟩

def freshVar : Variable :=
  ⟨"cv5", "young", "Young", "categorical",
    some [⟨"c1", "AND", "age", "30", "equals"⟩]⟩

def freshRow : Row := [("age", JSVal.vStr "30")]

def freshState : DataState :=
  ⟨some [freshRow], [⟨"v1", "age", "Age", "numeric", none⟩]⟩

def orFoldConds : List Condition :=
  [⟨"c1", "AND", "y", "q", "equals"⟩, ⟨"c2", "OR", "y", "r", "equals"⟩]

def orFoldRow : Row := [("y", JSVal.vStr "r")]

def orFoldVar : Variable := ⟨"cv6", "ind", "Ind", "categorical", some orFoldConds⟩

def genderInfoVar : InfoVariable :=
  ⟨"gender", "Gender", "categorical", [("1", "Male")], []⟩

/-- A builder state with one row and one column variable selected. -/
def dispatchSample : BuilderState :=
  { initialBuilderState (some "f") with
      rowVariables := ["a"], columnVariables := ["b"] }

def selOpsSample : List SelOp := [.addRow "a", .addRow "a", .addCol "b"]

def selSampleFinal : BuilderState :=
  selOpsSample.foldl applySelOp (initialBuilderState (some "f"))

/-! ### Claim C1 -/

/-- C1 (code bug in `addCustomVariable`): the claim — and the spec §4.2 —
says conditions are combined left-to-right through each condition's
declared operator, so an OR chain matches when either side holds.  The
evaluator instead conjoins all conditions with `.every`, ignoring the
declared operator (which the `CustomVariableBuilder` UI nevertheless lets
the user pick, advertising OR examples in its help dialog).  At this input
the declared-operator fold is true (`false OR true`) yet the evaluator
writes derived value 0. -/
theorem c1_or_operator_ignored_by_every :
    specFoldConditions orChainRow orChainConds = true ∧
    (addCustomVariable orChainState orChainVar).data =
      some [[("x", JSVal.vStr "b"), ("v1", JSVal.vNum 0)]] := by
  decide

/-! ### Claim C2 -/

/-- C2 counterexample: the claim says `equals` compares the raw value
string-equal to the comparison value, but the code uses JS strict equality
`===`, under which a numeric cell never equals the (string) comparison
value: for cell 5 and comparison value "5" the code yields false while the
spec's string-equality reading yields true. -/
theorem c2_counterexample_equals_is_strict :
    evalCondition numericRow numericEqualsCond = false ∧
    specConditionTruth numericRow numericEqualsCond = true := by
  decide

/-- C2 amended: a condition's truth value is — `equals` → the raw cell
value is the identical string (strict equality; a non-string cell never
matches); `contains` → containment of the comparison value in the string
rendering of the cell; `greater_than` / `less_than` → comparison of the
JS `Number` coercions of both sides, false whenever either coercion is
NaN. -/
theorem c2_condition_semantics (row : Row) (c : Condition) :
    (c.comparison = "equals" →
      (evalCondition row c = true ↔ rowGet row c.column = JSVal.vStr c.value)) ∧
    (c.comparison = "contains" →
      (evalCondition row c = true ↔
        jsIncludes (jsToString (rowGet row c.column)) c.value = true)) ∧
    (c.comparison = "greater_than" →
      (evalCondition row c = true ↔
        ∃ a b, jsToNumber (rowGet row c.column) = some a ∧
          parseJSNumber c.value = some b ∧ b < a)) ∧
    (c.comparison = "less_than" →
      (evalCondition row c = true ↔
        ∃ a b, jsToNumber (rowGet row c.column) = some a ∧
          parseJSNumber c.value = some b ∧ a < b)) := by
  refine ⟨?_, ?_, ?_, ?_⟩ <;> intro h
  · cases hv : rowGet row c.column <;> simp [evalCondition, h, jsStrictEqStr, hv]
  · simp [evalCondition, h]
  · cases h1 : jsToNumber (rowGet row c.column) <;>
      cases h2 : parseJSNumber c.value <;>
        simp [evalCondition, h, numGt, h1, h2]
  · cases h1 : jsToNumber (rowGet row c.column) <;>
      cases h2 : parseJSNumber c.value <;>
        simp [evalCondition, h, numLt, h1, h2]

/-- C2 witness: the amended equals semantics applied at a concrete string
cell. -/
theorem c2_condition_semantics_witness :
    evalCondition [("g", JSVal.vStr "M")] ⟨"c1", "AND", "g", "M", "equals"⟩ = true ↔
      rowGet [("g", JSVal.vStr "M")] "g" = JSVal.vStr "M" :=
  (c2_condition_semantics [("g", JSVal.vStr "M")]
    ⟨"c1", "AND", "g", "M", "equals"⟩).1 rfl

/-! ### Claim C3 -/

/-- C3 counterexample: the claim says appending a derived column whose
name already exists fails with DuplicateColumnName and leaves the dataset
unchanged.  `addCustomVariable` performs no duplicate check (its type has
no failure outcome): at this input the existing column `x` is overwritten
with the indicator, changing the dataset. -/
theorem c3_counterexample_overwrite :
    (addCustomVariable dupState dupVar).data = some [[("x", JSVal.vNum 0)]] ∧
    dupState.data = some [[("x", JSVal.vNum 1)]] ∧
    (addCustomVariable dupState dupVar).data ≠ dupState.data := by
  decide

/-- C3 amended: when the target name already exists as a column,
`addCustomVariable` raises no error; it overwrites that column's value in
every data row with the 0/1 indicator (key order preserved and no new
column added) and still appends the variable to the variable list. -/
theorem c3_duplicate_name_overwrites (st : DataState) (v : Variable)
    (rows : List Row) (hd : st.data = some rows) :
    (addCustomVariable st v).variableList = st.variableList ++ [v] ∧
    (addCustomVariable st v).data = some (rows.map (processRow v)) ∧
    ∀ row ∈ rows, v.name ∈ rowKeys row →
      rowKeys (processRow v row) = rowKeys row ∧
      (processRow v row).lookup v.name =
        some (if matchesConditions v row then JSVal.vNum 1 else JSVal.vNum 0) := by
  refine ⟨rfl, by simp [addCustomVariable, hd], ?_⟩
  intro row hr hm
  exact ⟨objSet_keys_of_mem row v.name _ hm, objSet_lookup_self row v.name _⟩

/-- C3 witness: the amended overwrite behaviour at the concrete colliding
input. -/
theorem c3_duplicate_name_overwrites_witness :
    rowKeys (processRow dupVar [("x", JSVal.vNum 1)]) =
      rowKeys [("x", JSVal.vNum 1)] ∧
    (addCustomVariable dupState dupVar).variableList =
      dupState.variableList ++ [dupVar] :=
  ⟨((c3_duplicate_name_overwrites dupState dupVar [[("x", JSVal.vNum 1)]]
      rfl).2.2 [("x", JSVal.vNum 1)] (by simp) (by decide)).1,
   (c3_duplicate_name_overwrites dupState dupVar [[("x", JSVal.vNum 1)]]
      rfl).1⟩

/-! ### Claim C4 -/

/-- C4 counterexample: the claim says a condition with an unknown
comparison kind is rejected with a ValidationError and never silently
treated as false.  The evaluator's `default` branch silently yields false
and the computation proceeds: at this input (comparison kind "matches",
which would hold as a containment) the condition evaluates to false and
the derived column is written as 0 with no error. -/
theorem c4_counterexample_silent_false :
    evalCondition [("x", JSVal.vStr "b")] unknownCompCond = false ∧
    (addCustomVariable unknownCompState unknownCompVar).data =
      some [[("x", JSVal.vStr "b"), ("flag", JSVal.vNum 0)]] := by
  decide

/-- C4 amended: a condition whose comparison kind is none of equals,
contains, greater_than, less_than is not rejected; the evaluator's default
branch makes the condition evaluate to false. -/
theorem c4_unknown_comparison_evaluates_false (row : Row) (c : Condition)
    (h1 : c.comparison ≠ "equals") (h2 : c.comparison ≠ "contains")
    (h3 : c.comparison ≠ "greater_than") (h4 : c.comparison ≠ "less_than") :
    evalCondition row c = false := by
  simp [evalCondition, h1, h2, h3, h4]

/-- C4 witness: the default branch at a concrete unknown comparison
kind. -/
theorem c4_unknown_comparison_evaluates_false_witness :
    evalCondition [("y", JSVal.vNull)] ⟨"c9", "AND", "y", "1", "regex"⟩ = false :=
  c4_unknown_comparison_evaluates_false _ _
    (by decide) (by decide) (by decide) (by decide)

/-! ### Claim C5 -/

/-- C5: when the custom variable's name is not an existing column,
`addCustomVariable` leaves every pre-existing column's value unchanged in
every row (the spread copies each field), the only per-row change being
the new derived column appended at the end of the key list, and the new
variable is appended at the end of the variable list. -/
theorem c5_append_only_no_mutation (st : DataState) (v : Variable)
    (rows : List Row) (hd : st.data = some rows) :
    (addCustomVariable st v).variableList = st.variableList ++ [v] ∧
    (addCustomVariable st v).data = some (rows.map (processRow v)) ∧
    ∀ row ∈ rows, v.name ∉ rowKeys row →
      (∀ k, k ≠ v.name → (processRow v row).lookup k = row.lookup k) ∧
      rowKeys (processRow v row) = rowKeys row ++ [v.name] ∧
      (processRow v row).lookup v.name =
        some (if matchesConditions v row then JSVal.vNum 1 else JSVal.vNum 0) := by
  refine ⟨rfl, by simp [addCustomVariable, hd], ?_⟩
  intro row hr hn
  exact ⟨fun k hk => objSet_lookup_ne row v.name _ k hk,
    objSet_keys_of_not_mem row v.name _ hn,
    objSet_lookup_self row v.name _⟩

/-- C5 witness: the append-only behaviour at a concrete fresh-named
variable. -/
theorem c5_append_only_no_mutation_witness :
    rowKeys (processRow freshVar freshRow) = rowKeys freshRow ++ ["young"] ∧
    (processRow freshVar freshRow).lookup "age" = freshRow.lookup "age" ∧
    (addCustomVariable freshState freshVar).variableList =
      freshState.variableList ++ [freshVar] :=
  ⟨((c5_append_only_no_mutation freshState freshVar [freshRow] rfl).2.2
      freshRow (by simp) (by decide)).2.1,
   ((c5_append_only_no_mutation freshState freshVar [freshRow] rfl).2.2
      freshRow (by simp) (by decide)).1 "age" (by decide),
   (c5_append_only_no_mutation freshState freshVar [freshRow] rfl).1⟩

/-! ### Claim C6 -/

/-- C6 counterexample: the claim says the derived value is 1 exactly when
the left-associative fold over the declared operators holds.  At this
input the fold is true (`false OR true`) but the evaluator — which
conjoins all conditions — writes 0. -/
theorem c6_counterexample_fold_vs_indicator :
    specFoldConditions orFoldRow orFoldConds = true ∧
    rowGet (processRow orFoldVar orFoldRow) "ind" = JSVal.vNum 0 := by
  decide

/-- C6 amended: the derived value is exactly 1 when every condition holds
(the evaluator conjoins all conditions, regardless of the declared
operators), else exactly 0; in particular the derived column only takes
values 0 and 1. -/
theorem c6_indicator_of_conjunction (v : Variable) (row : Row)
    (cs : List Condition) (h : v.conditions = some cs) :
    rowGet (processRow v row) v.name =
      (if cs.all (evalCondition row) then JSVal.vNum 1 else JSVal.vNum 0) ∧
    (rowGet (processRow v row) v.name = JSVal.vNum 1 ∨
      rowGet (processRow v row) v.name = JSVal.vNum 0) := by
  have hg : rowGet (processRow v row) v.name =
      (if matchesConditions v row then JSVal.vNum 1 else JSVal.vNum 0) :=
    rowGet_objSet_self row v.name _
  constructor
  · rw [hg]
    simp [matchesConditions, h]
  · rw [hg]
    by_cases hm : matchesConditions v row <;> simp [hm]

/-- C6 witness: the conjunction indicator at a concrete input. -/
theorem c6_indicator_of_conjunction_witness :
    rowGet (processRow orFoldVar orFoldRow) "ind" =
      (if orFoldConds.all (evalCondition orFoldRow) then JSVal.vNum 1
        else JSVal.vNum 0) :=
  (c6_indicator_of_conjunction orFoldVar orFoldRow orFoldConds rfl).1

/-! ### Claim C7 -/

/-- C7 (code bug in `getFrequencyData`): the claim — and the spec's
idempotence property — says the displayed frequency counts and
percentages for a categorical variable are a deterministic function of
the variable.  The code fills them from `Math.random()` (its own comment
says `TODO: Replace with actual counts`): with the random stream made
explicit, two evaluations over the same variable differ (count 1 versus
51 for the single value label). -/
theorem c7_frequency_data_depends_on_rng :
    getFrequencyData genderInfoVar (fun _ => 0) ≠
      getFrequencyData genderInfoVar (fun _ => 1 / 2) := by
  have e1 : getFrequencyData genderInfoVar (fun _ => 0) =
      .categorical [⟨"Male", "1", 1, 0⟩] := by
    norm_num [getFrequencyData, genderInfoVar, catFreqItems]
    exact fun h => absurd h (by decide)
  have e2 : getFrequencyData genderInfoVar (fun _ => 1 / 2) =
      .categorical [⟨"Male", "1", 51, 500⟩] := by
    norm_num [getFrequencyData, genderInfoVar, catFreqItems]
    exact fun h => absurd h (by decide)
  rw [e1, e2]
  simp

/-! ### Claim C8 -/

/-- C8: every request the cross-tab builder dispatches has a non-empty
`row_vars` list — the Run Analysis button is disabled unless
`canRunAnalysis`, which requires a selected row variable — and, per the
spec-modelled backend validator, a request with an empty `row_vars` list
is rejected with a ValidationError rather than computed. -/
theorem c8_dispatched_row_vars_nonempty :
    (∀ (s : BuilderState) (p : Payload),
      runAnalysisClick s = some p → p.row_vars ≠ []) ∧
    (∀ (cols : List String) (req : Payload), req.row_vars = [] →
      validateCrossTabRequest cols req = .error .emptyRowVars) := by
  constructor
  · intro s p h
    obtain ⟨hc, fp, hfp, hp⟩ := runAnalysisClick_some s p h
    subst hp
    simp only [canRunAnalysis, Bool.and_eq_true, Bool.not_eq_true'] at hc
    show s.rowVariables ≠ []
    intro hnil
    rw [hnil] at hc
    simp at hc
  · intro cols req h
    simp [validateCrossTabRequest, h]

/-- C8 witness: a concrete dispatch carries row variable "a", and the
validator rejects a concrete empty-rows request. -/
theorem c8_dispatched_row_vars_nonempty_witness :
    (buildPayload dispatchSample (replaceBackslashes "f")).row_vars ≠ [] ∧
    validateCrossTabRequest ["a"]
      (buildPayload (initialBuilderState (some "f")) "f") =
      .error .emptyRowVars :=
  ⟨c8_dispatched_row_vars_nonempty.1 dispatchSample _ rfl,
   c8_dispatched_row_vars_nonempty.2 ["a"]
     (buildPayload (initialBuilderState (some "f")) "f") rfl⟩

/-! ### Claim C9 -/

/-- C9: in every dispatched payload the subgroup field is
`subgroupPayload` of the selected subgroup variable and values, which is
absent when no subgroup variable or no values are selected, maps the
variable to the single literal when exactly one value is selected, and to
the list of all selected values when more than one is selected. -/
theorem c9_subgroup_payload_shape :
    (∀ (s : BuilderState) (fp : String),
      (buildPayload s fp).subgroup =
        subgroupPayload s.subgroupVar s.subgroupValues) ∧
    (∀ vals : List String, subgroupPayload none vals = none) ∧
    (∀ v : String, subgroupPayload (some v) [] = none) ∧
    (∀ v x : String,
      subgroupPayload (some v) [x] = some (v, SubgroupVal.single x)) ∧
    (∀ (v x y : String) (t : List String),
      subgroupPayload (some v) (x :: y :: t) =
        some (v, SubgroupVal.multi (x :: y :: t))) := by
  refine ⟨fun s fp => rfl, fun vals => ?_, fun v => rfl,
    fun v x => rfl, fun v x y t => rfl⟩
  cases vals with
  | nil => rfl
  | cons x t => cases t <;> rfl

/-! ### Claim C10 -/

/-- C10: adding a name already present in the row, column, or banner
selection leaves the whole builder state unchanged, and consequently the
`row_vars` and `col_vars` lists of every payload dispatched from a state
reachable by selection operations from empty selections contain no
duplicate names. -/
theorem c10_selection_add_idempotent_nodup :
    (∀ (s : BuilderState) (v : String),
      v ∈ s.rowVariables → applySelOp s (.addRow v) = s) ∧
    (∀ (s : BuilderState) (v : String),
      v ∈ s.columnVariables → applySelOp s (.addCol v) = s) ∧
    (∀ (s : BuilderState) (v : String),
      v ∈ s.bannerVariables → applySelOp s (.addBanner v) = s) ∧
    (∀ (s0 : BuilderState) (ops : List SelOp) (p : Payload),
      s0.rowVariables = [] → s0.columnVariables = [] →
      s0.bannerVariables = [] →
      runAnalysisClick (ops.foldl applySelOp s0) = some p →
      p.row_vars.Nodup ∧ p.col_vars.Nodup) := by
  refine ⟨addRow_mem_eq, addCol_mem_eq, addBanner_mem_eq, ?_⟩
  intro s0 ops p h1 h2 h3 hd
  have hinv : selNodup (ops.foldl applySelOp s0) :=
    foldl_selNodup ops s0 ⟨by simp [h1], by simp [h2], by simp [h3]⟩
  obtain ⟨hc, fp, hfp, hp⟩ := runAnalysisClick_some _ p hd
  subst hp
  exact ⟨hinv.1, hinv.2.1⟩

/-- C10 witness: adding "a" twice keeps one copy, and the dispatched
payload from a concrete operation sequence has duplicate-free row and
column variables. -/
theorem c10_selection_add_idempotent_nodup_witness :
    applySelOp dispatchSample (.addRow "a") = dispatchSample ∧
    ((buildPayload selSampleFinal (replaceBackslashes "f")).row_vars.Nodup ∧
      (buildPayload selSampleFinal (replaceBackslashes "f")).col_vars.Nodup) :=
  ⟨c10_selection_add_idempotent_nodup.1 dispatchSample "a" (by decide),
   c10_selection_add_idempotent_nodup.2.2.2 (initialBuilderState (some "f"))
     selOpsSample _ rfl rfl rfl rfl⟩

end CrossTabTool
